import Mathlib

/-!
Verification development for the NTPU market-research statistical tool
(`src/main.rs`).  The program reads a CSV survey dataset and a JSON field
descriptor, extracts each descriptor-named column as a dense `f64` vector
(missing or non-numeric cells become `0.0`), builds two pairwise association
matrices (Pearson over the `Ordinal` fields, Kendall over the `Nominal`
fields) rendered as significance-aware Markdown cell text, runs a factor
analysis over two hardcoded survey questions, and writes a single Markdown
report.

The embedding below models numeric values as `ℚ` (the structural behaviour
under scrutiny — substitution, ordering, dispatch, equality tests and
formatting shape — does not depend on binary floating-point rounding), and
models the external collaborators (polars CSV parsing and table rendering,
the scipy statistics calls, the Python factor analyzer, the file system) as
explicit parameters.
-/

namespace MarketTool

/-- Measurement scale of a survey column (source `enum Scale`). -/
inductive Scale where
  | Nominal
  | Ordinal
  deriving DecidableEq, Repr

/-- One record of the JSON field-descriptor file (source `struct Field`):
a column name together with its measurement scale. -/
structure Field where
  name : String
  scale : Scale
  deriving DecidableEq, Repr

/-- Source `matches!(field.scale, Scale::Ordinal)`. -/
def Scale.isOrdinal : Scale → Bool
  | .Ordinal => true
  | .Nominal => false

/-- Source `matches!(field.scale, Scale::Nominal)`. -/
def Scale.isNominal : Scale → Bool
  | .Nominal => true
  | .Ordinal => false

/-- Outcome of polars casting one raw CSV cell to `Float64`
(source line `…cast(&DataType::Float64)…`): the cell is absent, fails to
cast (e.g. the literal text "N/A"), or casts to a numeric value. -/
inductive Cell where
  | missing
  | unparseable (raw : String)
  | value (q : ℚ)
  deriving DecidableEq

/-- The cast result as an optional number (`None` for a null entry of the
resulting `Float64` series). -/
def castF64 : Cell → Option ℚ
  | .missing => none
  | .unparseable _ => none
  | .value q => some q

/-- A named dataset column with its row-aligned raw cells. -/
structure Column where
  name : String
  cells : List Cell
  deriving DecidableEq

/-- The loaded CSV dataset: columns in their original order. -/
abbrev Dataset := List Column

/-- Source `orig_dataframe.column(&field.name)`: lookup of a column by
name; `none` models the `Err` that the source immediately `unwrap`s. -/
def getColumn (df : Dataset) (name : String) : Option Column :=
  df.find? (fun c => c.name == name)

/-- Source `.into_iter().map(|data| data.unwrap_or(0.0)).collect()`:
every null (missing or failed cast) becomes `0.0`. -/
def extractColumn (col : Column) : List ℚ :=
  col.cells.map (fun cell => (castF64 cell).getD 0)

/-- Extraction of one named column as a dense numeric vector. -/
def extract (df : Dataset) (name : String) : Option (List ℚ) :=
  (getColumn df name).map extractColumn

/-- Collect an iterator of fallible steps into a vector: the result of a
rayon `map(…).collect::<Vec<_>>()` whose body `unwrap`s — `none` models the
panic at the first failing element, `some` the in-order vector. -/
def collectVec {α β : Type _} (f : α → Option β) : List α → Option (List β)
  | [] => some []
  | a :: l =>
    match f a with
    | none => none
    | some b => (collectVec f l).map (fun bs => b :: bs)

/-- Source lines 117-131: `fields.par_iter().map(…).collect()` — one dense
vector per descriptor field, in descriptor order (rayon's collect preserves
order); `none` models the panic on a missing column. -/
def extractAll (df : Dataset) (fields : List Field) : Option (List (List ℚ)) :=
  collectVec (fun field => extract df field.name) fields

/-- Signature of the delegated scipy statistics calls
(`pearsonr` / `kendalltau`): two equal-length vectors in, a coefficient and
a significance out. -/
abbrev Assoc := List ℚ → List ℚ → ℚ × ℚ

/-- Decimal digit character. -/
def decDigitChar (d : ℕ) : Char := Char.ofNat (48 + d)

/-- Decimal digits of a natural number, most significant first. -/
def natDigits (n : ℕ) : List Char :=
  if _h : n < 10 then [decDigitChar n]
  else natDigits (n / 10) ++ [decDigitChar (n % 10)]
  termination_by n
  decreasing_by exact Nat.div_lt_self (by omega) (by omega)

/-- Left-pad a digit list with zeros up to `prec` characters. -/
def padZeros (prec : ℕ) (ds : List Char) : List Char :=
  List.replicate (prec - ds.length) '0' ++ ds

/-- Numerator of `q` scaled to `prec` decimal places and rounded to the
nearest integer, in absolute value. -/
def scaledAbs (prec : ℕ) (q : ℚ) : ℕ :=
  (round (q * (10 : ℚ) ^ prec)).natAbs

/-- The `prec` digits printed after the decimal point. -/
def fracPart (prec : ℕ) (q : ℚ) : String :=
  String.mk (padZeros prec (natDigits (scaledAbs prec q % 10 ^ prec)))

/-- Fixed-point decimal rendering with `prec` fractional digits, the model
of Rust's fixed-precision float formatting used by the `Display` impls. -/
def fmtFixed (prec : ℕ) (q : ℚ) : String :=
  (if round (q * (10 : ℚ) ^ prec) < 0 then "-" else "")
    ++ String.mk (natDigits (scaledAbs prec q / 10 ^ prec))
    ++ "." ++ fracPart prec q

/-- Source `struct CorrelationResult { r: f64, p_value: f64 }`. -/
structure CorrelationResult where
  r : ℚ
  p_value : ℚ
  deriving DecidableEq

/-- Source `From<(f64, f64)> for CorrelationResult`. -/
def CorrelationResult.ofPair (v : ℚ × ℚ) : CorrelationResult :=
  ⟨v.1, v.2⟩

/-- Source `enum CorrelationValue`. -/
inductive CorrelationValue where
  | Valid (result : CorrelationResult)
  | NotValid
  deriving DecidableEq

/-- Source `Display for CorrelationResult` with `precision = 5`: bold
markers exactly when `self.r > 0.0 && self.p_value < 0.05`. -/
def CorrelationResult.render (res : CorrelationResult) : String :=
  if 0 < res.r ∧ res.p_value < 5 / 100 then
    "**r: " ++ fmtFixed 5 res.r ++ "** <br> **p value: "
      ++ fmtFixed 5 res.p_value ++ "**"
  else
    "r: " ++ fmtFixed 5 res.r ++ "<br>p value: " ++ fmtFixed 5 res.p_value

/-- Source `Display for CorrelationValue`. -/
def CorrelationValue.render : CorrelationValue → String
  | .NotValid => "不適用"
  | .Valid result => result.render

/-- Whether a rendered cell starts with the Markdown bold marker. -/
def hasBold (s : String) : Bool := decide (s.data.take 2 = ['*', '*'])

/-- Source `column_names.get(index).unwrap_or(&unknown_value)`. -/
def seriesName (column_names : List String) (index : ℕ) : String :=
  (column_names.get? index).getD "未知"

/-- Source `processed_data.iter().zip(fields).filter(…)`: the data/field
pairs of one scale group, in extraction (descriptor) order. -/
def groupColumns (inGroup : Scale → Bool)
    (processed_data : List (List ℚ)) (fields : List Field) :
    List (List ℚ × Field) :=
  (processed_data.zip fields).filter (fun yf => inGroup yf.2.scale)

/-- One row series of a scale-group matrix (the iterator body of source
lines 230-247 resp. 251-268): for row data `x`, walk the columns of the
same scale group and render each cell, `不適用` when the two data vectors
compare equal (`if x == y`), otherwise the delegated statistic. -/
def groupRow (assoc : Assoc) (inGroup : Scale → Bool)
    (processed_data : List (List ℚ)) (fields : List Field)
    (x : List ℚ) : List String :=
  (groupColumns inGroup processed_data fields).map
    (fun yf =>
      if x = yf.1 then CorrelationValue.NotValid.render
      else (CorrelationValue.Valid (CorrelationResult.ofPair
        (assoc x yf.1))).render)

/-- A polars `Series` of strings: its name and its entries. -/
abbrev Series := String × List String

/-- The body of the source `for_each` (lines 225-272): push the row built
from `t = ((index, x), field)` onto the Pearson vector when the field is
`Ordinal`, onto the Kendall vector when it is `Nominal`. -/
def correlationStep (pearson kendall : Assoc)
    (processed_data : List (List ℚ)) (fields : List Field)
    (column_names : List String)
    (acc : List Series × List Series) (t : (ℕ × List ℚ) × Field) :
    List Series × List Series :=
  match t.2.scale with
  | Scale.Nominal =>
      (acc.1,
       acc.2 ++ [(seriesName column_names t.1.1,
                  groupRow kendall Scale.isNominal processed_data fields t.1.2)])
  | Scale.Ordinal =>
      (acc.1 ++ [(seriesName column_names t.1.1,
                  groupRow pearson Scale.isOrdinal processed_data fields t.1.2)],
       acc.2)

/-- Source `fn correlation` (lines 194-274): header series of group column
names first, then one row series per field of the group, accumulated by a
left-to-right pass over `processed_data.iter().enumerate().zip(fields)`. -/
def correlation (pearson kendall : Assoc)
    (processed_data : List (List ℚ)) (fields : List Field) :
    List Series × List Series :=
  let column_names := fields.map Field.name
  let pearson_column_names : Series :=
    ("", (fields.filter (fun f => f.scale.isOrdinal)).map Field.name)
  let kendall_column_names : Series :=
    ("", (fields.filter (fun f => f.scale.isNominal)).map Field.name)
  (processed_data.enum.zip fields).foldl
    (correlationStep pearson kendall processed_data fields column_names)
    ([pearson_column_names], [kendall_column_names])

/-- First hardcoded factor-analysis question (source line 149). -/
def factorQuestion1 : String :=
  "請問您一次願意花多少新台幣購買手機充電設備 (例如：充電線、豆腐頭) ?"

/-- Second hardcoded factor-analysis question (source line 150). -/
def factorQuestion2 : String := "您一個月的平均花費為多少新台幣?"

/-- Rust `str::contains`: substring test. -/
def strContains (s pat : String) : Bool := decide (pat.data <:+: s.data)

/-- The filter of source lines 146-151: keep a field iff its name contains
one of the two hardcoded questions. -/
def isFactorField (field : Field) : Bool :=
  strContains field.name factorQuestion1
    || strContains field.name factorQuestion2

/-- Source lines 143-167: the factor-analysis input table — the filtered
fields in descriptor order, each extracted with the same
`data.unwrap_or(0.0)` rule; `none` models the panic on a missing column. -/
def factorTable (df : Dataset) (fields : List Field) :
    Option (List (String × List ℚ)) :=
  collectVec (fun field => (extract df field.name).map (fun v => (field.name, v)))
    (fields.filter isFactorField)

/-- The external collaborators of `fn main`, passed explicitly: the argv
vector, file opening and JSON parsing of the descriptor, CSV reading,
polars `describe`/table rendering, the Python factor analyzer, the two
scipy statistics, and whether `fs::write` succeeds. -/
structure ExternalWorld where
  args : List String
  openFieldFile : String → Option String
  parseFields : String → Option (List Field)
  readCsv : String → Option Dataset
  describeTable : Dataset → String
  renderMatrix : List Series → String
  factorAnalyze : List (String × List ℚ) → String
  pearsonR : Assoc
  kendallTau : Assoc
  writeOk : Bool

/-- How the process ends: `eprintln` of a diagnostic followed by
`exit(1)`; an `unwrap` panic (the Rust runtime aborts with status 101 and
no diagnostic of the program's own); or a normal return after writing
`<source>.md` (exit status 0). -/
inductive Outcome where
  | exit1 (diagnostic : String)
  | panicked
  | success (fileName : String) (contents : String)
  deriving DecidableEq

/-- The process exit status of each outcome. -/
def exitCode : Outcome → ℕ
  | .exit1 _ => 1
  | .panicked => 101
  | .success _ _ => 0

/-- Whether an output file was written. -/
def producesOutput : Outcome → Bool
  | .success _ _ => true
  | _ => false

/-- Source `fn main` (lines 85-178), step by step: argv checks, descriptor
open (`File::open(…).unwrap()` — a missing descriptor file panics),
descriptor JSON parse (`let Ok(fields) … else eprintln + exit(1)`), CSV
read, the describe block, column extraction (unchecked `unwrap` on the
column lookup — an unknown column panics), the two matrices, the
factor-analysis block, and finally `fs::write`. -/
def mainRun (w : ExternalWorld) : Outcome :=
  match w.args.get? 1 with
  | none => .exit1 "No source file specified."
  | some source_file_name =>
    match w.args.get? 2 with
    | none => .exit1 "No field description file specified."
    | some field_file_name =>
      match w.openFieldFile field_file_name with
      | none => .panicked
      | some raw =>
        match w.parseFields raw with
        | none => .exit1 "Unable to parse fields from JSON file you specified."
        | some fields =>
          match w.readCsv source_file_name with
          | none => .exit1 "Unable to open CSV file."
          | some df =>
            let describeBlock :=
              "## 敘述統計\n\n" ++ w.describeTable df ++ "\n\n"
            match extractAll df fields with
            | none => .panicked
            | some processed_data =>
              let mats := correlation w.pearsonR w.kendallTau processed_data fields
              let pearsonBlock := "## Pearson \n\n" ++ w.renderMatrix mats.1 ++ "\n\n"
              let kendallBlock := "## Kendall \n\n" ++ w.renderMatrix mats.2 ++ "\n\n"
              match factorTable df fields with
              | none => .panicked
              | some ftab =>
                let factorBlock := "## 因子分析 \n\n" ++ w.factorAnalyze ftab ++ "\n\n"
                if w.writeOk then
                  .success (source_file_name ++ ".md")
                    (describeBlock ++ pearsonBlock ++ kendallBlock ++ factorBlock)
                else
                  .exit1 "Unable to write result."

/-! ## Helper lemmas -/

/-- Two pointwise-equal fallible steps collect to the same result. -/
theorem collectVec_congr {α β : Type _} {f g : α → Option β} :
    ∀ {l : List α}, (∀ a ∈ l, f a = g a) → collectVec f l = collectVec g l
  | [], _ => rfl
  | a :: l, h => by
    have ha : f a = g a := h a (by simp)
    have ht : collectVec f l = collectVec g l :=
      collectVec_congr (fun x hx => h x (by simp [hx]))
    simp only [collectVec, ha, ht]

/-- A failing element makes the whole collect fail (the panic aborts). -/
theorem collectVec_none_of_mem {α β : Type _} {f : α → Option β} {a : α} :
    ∀ {l : List α}, a ∈ l → f a = none → collectVec f l = none := by
  intro l
  induction l with
  | nil => intro h; simp at h
  | cons b t ih =>
    intro hmem hfa
    rcases List.mem_cons.1 hmem with hab | hat
    · subst hab; simp [collectVec, hfa]
    · cases hfb : f b with
      | none => simp [collectVec, hfb]
      | some v => simp [collectVec, hfb, ih hat hfa]

/-- Dropping the `enumerate` index from the zipped iterator recovers the
plain zip. -/
theorem enumFrom_zip_map_strip {α β : Type _} :
    ∀ (n : ℕ) (l₁ : List α) (l₂ : List β),
      ((List.enumFrom n l₁).zip l₂).map (fun t => (t.1.2, t.2)) = l₁.zip l₂
  | _, [], _ => rfl
  | _, _ :: _, [] => rfl
  | n, a :: l₁, b :: l₂ => by
    simp only [List.enumFrom, List.zip_cons_cons, List.map_cons,
      enumFrom_zip_map_strip (n + 1) l₁ l₂]

/-- Same, starting from `enum`. -/
theorem enum_zip_map_strip {α β : Type _} (l₁ : List α) (l₂ : List β) :
    (l₁.enum.zip l₂).map (fun t => (t.1.2, t.2)) = l₁.zip l₂ :=
  enumFrom_zip_map_strip 0 l₁ l₂

/-- The element at position `j` of the enumerated zip carries index `j` and
the two entries found at position `j` of the original lists. -/
theorem enum_zip_get?_eq {α β : Type _} {l₁ : List α} {l₂ : List β} {j : ℕ}
    {t : (ℕ × α) × β} (h : (l₁.enum.zip l₂).get? j = some t) :
    t.1.1 = j ∧ l₁.get? j = some t.1.2 ∧ l₂.get? j = some t.2 := by
  rw [List.get?_zip_eq_some] at h
  obtain ⟨h1, h2⟩ := h
  rw [List.get?_enum] at h1
  cases hg : l₁.get? j with
  | none => rw [hg] at h1; simp at h1
  | some a =>
    rw [hg] at h1
    simp only [Option.map_some'] at h1
    have ht1 : t.1 = (j, a) := Option.some_injective _ h1.symm
    refine ⟨?_, ?_, h2⟩
    · rw [ht1]
    · rw [ht1]

/-- Every member of the enumerated zip carries its own position. -/
theorem enum_zip_mem {α β : Type _} {l₁ : List α} {l₂ : List β}
    {t : (ℕ × α) × β} (h : t ∈ l₁.enum.zip l₂) :
    l₁.get? t.1.1 = some t.1.2 ∧ l₂.get? t.1.1 = some t.2 := by
  obtain ⟨j, hj⟩ := List.mem_iff_get?.1 h
  obtain ⟨h1, h2, h3⟩ := enum_zip_get?_eq hj
  rw [h1]
  exact ⟨h2, h3⟩

/-- Unrolling the `for_each` of `fn correlation`: the fold routes each
enumerated field into the matrix of its scale, appending in order. -/
theorem correlation_foldl (p k : Assoc) (pd : List (List ℚ))
    (fs : List Field) (cns : List String) :
    ∀ (l : List ((ℕ × List ℚ) × Field)) (accP accK : List Series),
      l.foldl (correlationStep p k pd fs cns) (accP, accK) =
        (accP ++ (l.filter (fun t => t.2.scale.isOrdinal)).map
            (fun t => (seriesName cns t.1.1,
                       groupRow p Scale.isOrdinal pd fs t.1.2)),
         accK ++ (l.filter (fun t => t.2.scale.isNominal)).map
            (fun t => (seriesName cns t.1.1,
                       groupRow k Scale.isNominal pd fs t.1.2)))
  | [], accP, accK => by simp
  | t :: l, accP, accK => by
    cases hsc : t.2.scale with
    | Nominal =>
      rw [List.foldl_cons]
      show (l.foldl (correlationStep p k pd fs cns)
        (correlationStep p k pd fs cns (accP, accK) t)) = _
      rw [show correlationStep p k pd fs cns (accP, accK) t =
          (accP, accK ++ [(seriesName cns t.1.1,
            groupRow k Scale.isNominal pd fs t.1.2)]) by
        simp [correlationStep, hsc]]
      rw [correlation_foldl p k pd fs cns l]
      simp [hsc, Scale.isOrdinal, Scale.isNominal]
    | Ordinal =>
      rw [List.foldl_cons]
      rw [show correlationStep p k pd fs cns (accP, accK) t =
          (accP ++ [(seriesName cns t.1.1,
            groupRow p Scale.isOrdinal pd fs t.1.2)], accK) by
        simp [correlationStep, hsc]]
      rw [correlation_foldl p k pd fs cns l]
      simp [hsc, Scale.isOrdinal, Scale.isNominal]

/-- Closed form of `fn correlation`: each matrix is its header series of
group column names followed by one row series per group member, in
descriptor order. -/
theorem correlation_eq (p k : Assoc) (pd : List (List ℚ)) (fields : List Field) :
    correlation p k pd fields =
      (("", (fields.filter (fun f => f.scale.isOrdinal)).map Field.name) ::
          ((pd.enum.zip fields).filter (fun t => t.2.scale.isOrdinal)).map
            (fun t => (seriesName (fields.map Field.name) t.1.1,
                       groupRow p Scale.isOrdinal pd fields t.1.2)),
       ("", (fields.filter (fun f => f.scale.isNominal)).map Field.name) ::
          ((pd.enum.zip fields).filter (fun t => t.2.scale.isNominal)).map
            (fun t => (seriesName (fields.map Field.name) t.1.1,
                       groupRow k Scale.isNominal pd fields t.1.2))) := by
  unfold correlation
  rw [correlation_foldl]
  simp

/-- Stripping the enumeration index commutes with the scale filter. -/
theorem strip_filter (P : Scale → Bool) (pd : List (List ℚ)) (fields : List Field) :
    ((pd.enum.zip fields).filter (fun t => P t.2.scale)).map
        (fun t => (t.1.2, t.2)) = groupColumns P pd fields := by
  rw [groupColumns, ← enum_zip_map_strip pd fields]
  exact (@List.filter_map _ _ (fun yf : List ℚ × Field => P yf.2.scale)
    (fun t => (t.1.2, t.2)) (pd.enum.zip fields)).symm

/-- The row series at position `i` of a scale group: its name is the
field's name and its cells are that field's `groupRow`. -/
theorem filtered_row_at (assoc : Assoc) (P : Scale → Bool)
    (pd : List (List ℚ)) (fields : List Field) (i : ℕ) (x : List ℚ) (f : Field)
    (hi : (groupColumns P pd fields).get? i = some (x, f)) :
    (((pd.enum.zip fields).filter (fun t => P t.2.scale)).map
        (fun t => (seriesName (fields.map Field.name) t.1.1,
                   groupRow assoc P pd fields t.1.2))).get? i =
      some (f.name, groupRow assoc P pd fields x) := by
  rw [← strip_filter P pd fields, List.get?_map] at hi
  cases ht : ((pd.enum.zip fields).filter (fun t => P t.2.scale)).get? i with
  | none => rw [ht] at hi; simp at hi
  | some t =>
    rw [ht] at hi
    simp only [Option.map_some'] at hi
    have hstrip : (t.1.2, t.2) = (x, f) := Option.some_injective _ hi
    have hx : t.1.2 = x := congrArg Prod.fst hstrip
    have hf : t.2 = f := congrArg Prod.snd hstrip
    have hmem : t ∈ pd.enum.zip fields :=
      List.mem_of_mem_filter (List.get?_mem ht)
    have hname : fields.get? t.1.1 = some t.2 := (enum_zip_mem hmem).2
    have hsn : seriesName (fields.map Field.name) t.1.1 = f.name := by
      rw [seriesName, List.get?_map, hname]
      simp [hf]
    rw [List.get?_map, ht]
    simp [hsn, hx]

/-- The group columns project to the scale-filtered fields when the data
vector count matches the field count. -/
theorem groupColumns_map_snd (P : Scale → Bool) (pd : List (List ℚ))
    (fields : List Field) (hlen : pd.length = fields.length) :
    (groupColumns P pd fields).map Prod.snd =
      fields.filter (fun f => P f.scale) := by
  rw [groupColumns,
    show (fun yf : List ℚ × Field => P yf.2.scale) =
      ((fun f : Field => P f.scale) ∘ Prod.snd) from rfl,
    ← List.filter_map, List.map_snd_zip pd fields hlen.ge]

/-- A number below `10 ^ (k + 1)` prints with at most `k + 1` digits. -/
theorem natDigits_length_le (k : ℕ) :
    ∀ n : ℕ, n < 10 ^ (k + 1) → (natDigits n).length ≤ k + 1 := by
  induction k with
  | zero =>
    intro n h
    unfold natDigits
    rw [dif_pos (by simpa using h)]
    simp
  | succ k ih =>
    intro n h
    by_cases h10 : n < 10
    · unfold natDigits
      rw [dif_pos h10]
      simp
    · unfold natDigits
      rw [dif_neg h10]
      have hd : n / 10 < 10 ^ (k + 1) := by
        have hpow : (10 : ℕ) ^ (k + 1 + 1) = 10 ^ (k + 1) * 10 := by ring
        exact Nat.div_lt_of_lt_mul (by omega)
      have := ih (n / 10) hd
      simp only [List.length_append, List.length_cons, List.length_nil]
      omega

/-- The string built from a character list has that list's length. -/
theorem string_mk_length (l : List Char) : (String.mk l).length = l.length := rfl

/-- The fractional part of the 5-digit fixed-point rendering always has
exactly 5 characters. -/
theorem fracPart_length (q : ℚ) : (fracPart 5 q).length = 5 := by
  have hlt : scaledAbs 5 q % 10 ^ 5 < 10 ^ 5 := Nat.mod_lt _ (by norm_num)
  have hle : (natDigits (scaledAbs 5 q % 10 ^ 5)).length ≤ 5 := by
    have := natDigits_length_le 4 (scaledAbs 5 q % 10 ^ 5) (by omega)
    omega
  rw [fracPart, string_mk_length, padZeros, List.length_append,
    List.length_replicate]
  omega

/-- Each field name is counted once on the side of its own scale: the two
scale filters partition the descriptor. -/
theorem scale_partition_count (fields : List Field) (s : String) :
    ((fields.filter (fun f => f.scale.isOrdinal)).map Field.name).count s
      + ((fields.filter (fun f => f.scale.isNominal)).map Field.name).count s
      = (fields.map Field.name).count s := by
  induction fields with
  | nil => simp
  | cons f t ih =>
    cases h : f.scale with
    | Nominal =>
      have h1 : (f :: t).filter (fun f => f.scale.isOrdinal) =
          t.filter (fun f => f.scale.isOrdinal) := by
        rw [List.filter_cons, if_neg (by rw [h]; simp [Scale.isOrdinal])]
      have h2 : (f :: t).filter (fun f => f.scale.isNominal) =
          f :: t.filter (fun f => f.scale.isNominal) := by
        rw [List.filter_cons, if_pos (by rw [h]; simp [Scale.isNominal])]
      rw [h1, h2, List.map_cons, List.map_cons, List.count_cons,
        List.count_cons]
      omega
    | Ordinal =>
      have h1 : (f :: t).filter (fun f => f.scale.isOrdinal) =
          f :: t.filter (fun f => f.scale.isOrdinal) := by
        rw [List.filter_cons, if_pos (by rw [h]; simp [Scale.isOrdinal])]
      have h2 : (f :: t).filter (fun f => f.scale.isNominal) =
          t.filter (fun f => f.scale.isNominal) := by
        rw [List.filter_cons, if_neg (by rw [h]; simp [Scale.isNominal])]
      rw [h1, h2, List.map_cons, List.map_cons, List.count_cons,
        List.count_cons]
      omega

/-- The row-label column of a scale group lists the group fields' names in
descriptor order. -/
theorem filtered_rows_map_fst (assoc : Assoc) (P : Scale → Bool)
    (pd : List (List ℚ)) (fields : List Field)
    (hlen : pd.length = fields.length) :
    (((pd.enum.zip fields).filter (fun t => P t.2.scale)).map
        (fun t => (seriesName (fields.map Field.name) t.1.1,
                   groupRow assoc P pd fields t.1.2))).map Prod.fst =
      (fields.filter (fun f => P f.scale)).map Field.name := by
  rw [List.map_map]
  have hcongr :
      ((pd.enum.zip fields).filter (fun t => P t.2.scale)).map
          (Prod.fst ∘ fun t => (seriesName (fields.map Field.name) t.1.1,
            groupRow assoc P pd fields t.1.2)) =
        ((pd.enum.zip fields).filter (fun t => P t.2.scale)).map
          (fun t => t.2.name) := by
    refine List.map_congr_left (fun t ht => ?_)
    have hmem : t ∈ pd.enum.zip fields := List.mem_of_mem_filter ht
    have hname : fields.get? t.1.1 = some t.2 := (enum_zip_mem hmem).2
    show seriesName (fields.map Field.name) t.1.1 = t.2.name
    rw [seriesName, List.get?_map, hname]
    rfl
  rw [hcongr]
  have hstrip :
      ((pd.enum.zip fields).filter (fun t => P t.2.scale)).map
          (fun t => t.2.name) =
        (groupColumns P pd fields).map (fun yf => yf.2.name) := by
    rw [← strip_filter P pd fields, List.map_map]
    rfl
  rw [hstrip,
    show (fun yf : List ℚ × Field => yf.2.name) =
      (Field.name ∘ Prod.snd) from rfl,
    ← List.map_map, groupColumns_map_snd P pd fields hlen]

/-- The number of rows of a scale group equals the number of fields of
that scale. -/
theorem groupColumns_length (P : Scale → Bool) (pd : List (List ℚ))
    (fields : List Field) (hlen : pd.length = fields.length) :
    (groupColumns P pd fields).length =
      (fields.filter (fun f => P f.scale)).length := by
  have := congrArg List.length (groupColumns_map_snd P pd fields hlen)
  simpa using this

/-- The filtered enumerated zip has as many entries as the group. -/
theorem filtered_enum_zip_length (P : Scale → Bool) (pd : List (List ℚ))
    (fields : List Field) (hlen : pd.length = fields.length) :
    ((pd.enum.zip fields).filter (fun t => P t.2.scale)).length =
      (fields.filter (fun f => P f.scale)).length := by
  have := congrArg List.length (strip_filter P pd fields)
  rw [List.length_map] at this
  rw [this, groupColumns_length P pd fields hlen]

/-! ## Claims -/

/-- C1 (amended): in each scale-group matrix the cell for row data `x` and
column data `y` is the 不適用 (not-applicable) marker exactly when the two
extracted data vectors compare equal — which covers the self-pair but also
any two distinct columns with identical extracted data — and otherwise the
rendered provider result (Pearson for the Ordinal group, Kendall for the
Nominal group); a cell with equal vectors never shows a provider result,
whatever the providers return. -/
theorem correlation_cell_rule (p k : Assoc) (pd : List (List ℚ))
    (fields : List Field) :
    (∀ (i j : ℕ) (x y : List ℚ) (f g : Field),
      (groupColumns Scale.isOrdinal pd fields).get? i = some (x, f) →
      (groupColumns Scale.isOrdinal pd fields).get? j = some (y, g) →
      (correlation p k pd fields).1.get? (i + 1) =
          some (f.name, groupRow p Scale.isOrdinal pd fields x) ∧
        (groupRow p Scale.isOrdinal pd fields x).get? j =
          some (if x = y then "不適用"
            else (CorrelationValue.Valid
              (CorrelationResult.ofPair (p x y))).render)) ∧
    (∀ (i j : ℕ) (x y : List ℚ) (f g : Field),
      (groupColumns Scale.isNominal pd fields).get? i = some (x, f) →
      (groupColumns Scale.isNominal pd fields).get? j = some (y, g) →
      (correlation p k pd fields).2.get? (i + 1) =
          some (f.name, groupRow k Scale.isNominal pd fields x) ∧
        (groupRow k Scale.isNominal pd fields x).get? j =
          some (if x = y then "不適用"
            else (CorrelationValue.Valid
              (CorrelationResult.ofPair (k x y))).render)) := by
  constructor
  · intro i j x y f g hi hj
    constructor
    · rw [correlation_eq]
      show (_ :: _).get? (i + 1) = _
      rw [List.get?_cons_succ]
      exact filtered_row_at p Scale.isOrdinal pd fields i x f hi
    · simp only [groupRow, List.get?_map, hj, Option.map_some']
      rfl
  · intro i j x y f g hi hj
    constructor
    · rw [correlation_eq]
      show (_ :: _).get? (i + 1) = _
      rw [List.get?_cons_succ]
      exact filtered_row_at k Scale.isNominal pd fields i x f hi
    · simp only [groupRow, List.get?_map, hj, Option.map_some']
      rfl

/-- Concrete fields for exercising the cell rule: two Ordinal and two
Nominal columns with pairwise distinct data. -/
def exC1Fields : List Field :=
  [⟨"A", Scale.Ordinal⟩, ⟨"B", Scale.Ordinal⟩,
   ⟨"C", Scale.Nominal⟩, ⟨"D", Scale.Nominal⟩]

/-- Concrete extracted data for `exC1Fields`. -/
def exC1Data : List (List ℚ) := [[1], [2], [3], [4]]

/-- A constant stand-in provider. -/
def exC1P : Assoc := fun _ _ => (1, 1)

/-- Another constant stand-in provider. -/
def exC1K : Assoc := fun _ _ => (0, 1)

/-- C1 witness: the cell rule evaluated on a concrete 2+2 descriptor —
each group's conjunct applied independently — and, with only the Ordinal
conjunct, on the all-Ordinal equal-data descriptor of the counterexample,
where the Nominal group is empty. -/
theorem correlation_cell_rule_witness :
    ((correlation exC1P exC1K exC1Data exC1Fields).1.get? 1 =
        some ("A", groupRow exC1P Scale.isOrdinal exC1Data exC1Fields [1]) ∧
      (groupRow exC1P Scale.isOrdinal exC1Data exC1Fields [1]).get? 1 =
        some (if ([1] : List ℚ) = [2] then "不適用"
          else (CorrelationValue.Valid
            (CorrelationResult.ofPair (exC1P [1] [2]))).render)) ∧
    ((correlation exC1P exC1K exC1Data exC1Fields).2.get? 1 =
        some ("C", groupRow exC1K Scale.isNominal exC1Data exC1Fields [3]) ∧
      (groupRow exC1K Scale.isNominal exC1Data exC1Fields [3]).get? 1 =
        some (if ([3] : List ℚ) = [4] then "不適用"
          else (CorrelationValue.Valid
            (CorrelationResult.ofPair (exC1K [3] [4]))).render)) ∧
    ((correlation exC1P exC1P [[1], [1]]
          [⟨"A", Scale.Ordinal⟩, ⟨"B", Scale.Ordinal⟩]).1.get? 1 =
        some ("A", groupRow exC1P Scale.isOrdinal [[1], [1]]
          [⟨"A", Scale.Ordinal⟩, ⟨"B", Scale.Ordinal⟩] [1]) ∧
      (groupRow exC1P Scale.isOrdinal [[1], [1]]
          [⟨"A", Scale.Ordinal⟩, ⟨"B", Scale.Ordinal⟩] [1]).get? 1 =
        some (if ([1] : List ℚ) = [1] then "不適用"
          else (CorrelationValue.Valid
            (CorrelationResult.ofPair (exC1P [1] [1]))).render)) :=
  ⟨(correlation_cell_rule exC1P exC1K exC1Data exC1Fields).1 0 1 [1] [2]
      ⟨"A", Scale.Ordinal⟩ ⟨"B", Scale.Ordinal⟩
      (by with_unfolding_all rfl) (by with_unfolding_all rfl),
   (correlation_cell_rule exC1P exC1K exC1Data exC1Fields).2 0 1 [3] [4]
      ⟨"C", Scale.Nominal⟩ ⟨"D", Scale.Nominal⟩
      (by with_unfolding_all rfl) (by with_unfolding_all rfl),
   (correlation_cell_rule exC1P exC1P [[1], [1]]
        [⟨"A", Scale.Ordinal⟩, ⟨"B", Scale.Ordinal⟩]).1 0 1 [1] [1]
      ⟨"A", Scale.Ordinal⟩ ⟨"B", Scale.Ordinal⟩
      (by with_unfolding_all rfl) (by with_unfolding_all rfl)⟩

/-- C1 counterexample to the claim as stated: two distinct Ordinal columns
`A` and `B` that happen to hold identical extracted data render every cell
不適用, including the off-diagonal `(A, B)` cell, instead of the provider's
result — the not-applicable test is data equality, not column identity. -/
theorem correlation_selfpair_counterexample :
    (correlation exC1P exC1P [[1], [1]]
        [⟨"A", Scale.Ordinal⟩, ⟨"B", Scale.Ordinal⟩]).1 =
      [("", ["A", "B"]),
       ("A", ["不適用", "不適用"]),
       ("B", ["不適用", "不適用"])] ∧
    ("不適用" : String) ≠
      (CorrelationValue.Valid (CorrelationResult.ofPair ((1 : ℚ), (1 : ℚ)))).render := by
  constructor
  · with_unfolding_all rfl
  · have hr : (CorrelationValue.Valid
        (CorrelationResult.ofPair ((1 : ℚ), (1 : ℚ)))).render =
        "r: 1.00000<br>p value: 1.00000" := by
      with_unfolding_all rfl
    rw [hr]
    decide

/-- C2 (amended): the row and column label order of each produced matrix
equals the order of the records in the field-descriptor file, restricted to
the scale group — the header series lists the group's field names in
descriptor order and the row series carry the same names in the same
order.  Dataset column order is irrelevant, and permuting descriptor
records permutes the matrices (see the counterexample). -/
theorem correlation_label_order (p k : Assoc) (pd : List (List ℚ))
    (fields : List Field) (hlen : pd.length = fields.length) :
    (correlation p k pd fields).1.get? 0 =
        some ("", (fields.filter (fun f => f.scale.isOrdinal)).map Field.name) ∧
    (correlation p k pd fields).1.tail.map Prod.fst =
        (fields.filter (fun f => f.scale.isOrdinal)).map Field.name ∧
    (correlation p k pd fields).2.get? 0 =
        some ("", (fields.filter (fun f => f.scale.isNominal)).map Field.name) ∧
    (correlation p k pd fields).2.tail.map Prod.fst =
        (fields.filter (fun f => f.scale.isNominal)).map Field.name := by
  rw [correlation_eq]
  exact ⟨rfl, filtered_rows_map_fst p Scale.isOrdinal pd fields hlen,
    rfl, filtered_rows_map_fst k Scale.isNominal pd fields hlen⟩

/-- Two-column dataset whose own order is `A`, then `B`. -/
def exC2Df : Dataset := [⟨"A", [Cell.value 1]⟩, ⟨"B", [Cell.value 2]⟩]

/-- Descriptor listing `B` before `A` (opposite to the dataset order). -/
def exC2BA : List Field := [⟨"B", Scale.Ordinal⟩, ⟨"A", Scale.Ordinal⟩]

/-- Descriptor listing `A` before `B`. -/
def exC2AB : List Field := [⟨"A", Scale.Ordinal⟩, ⟨"B", Scale.Ordinal⟩]

/-- A constant stand-in provider for the ordering example. -/
def exC2P : Assoc := fun _ _ => (0, 1)

/-- C2 witness: the label-order rule evaluated on the `B`-before-`A`
descriptor. -/
theorem correlation_label_order_witness :
    (correlation exC2P exC2P [[2], [1]] exC2BA).1.get? 0 =
        some ("", (exC2BA.filter (fun f => f.scale.isOrdinal)).map Field.name) ∧
    (correlation exC2P exC2P [[2], [1]] exC2BA).1.tail.map Prod.fst =
        (exC2BA.filter (fun f => f.scale.isOrdinal)).map Field.name ∧
    (correlation exC2P exC2P [[2], [1]] exC2BA).2.get? 0 =
        some ("", (exC2BA.filter (fun f => f.scale.isNominal)).map Field.name) ∧
    (correlation exC2P exC2P [[2], [1]] exC2BA).2.tail.map Prod.fst =
        (exC2BA.filter (fun f => f.scale.isNominal)).map Field.name :=
  correlation_label_order exC2P exC2P [[2], [1]] exC2BA
    (by with_unfolding_all rfl)

/-- C2 counterexample to the claim as stated: with dataset column order
`A`, `B`, a descriptor listing `B` first yields matrix labels `B`, `A` —
descriptor order, not dataset order — and permuting the descriptor records
changes the produced matrix. -/
theorem correlation_dataset_order_counterexample :
    exC2Df.map Column.name = ["A", "B"] ∧
    extractAll exC2Df exC2BA = some [[2], [1]] ∧
    (correlation exC2P exC2P [[2], [1]] exC2BA).1.get? 0 =
      some ("", ["B", "A"]) ∧
    (["B", "A"] : List String) ≠ ["A", "B"] ∧
    extractAll exC2Df exC2AB = some [[1], [2]] ∧
    (correlation exC2P exC2P [[1], [2]] exC2AB).1 ≠
      (correlation exC2P exC2P [[2], [1]] exC2BA).1 := by
  refine ⟨by with_unfolding_all rfl, by with_unfolding_all rfl,
    by with_unfolding_all rfl, by decide, by with_unfolding_all rfl, ?_⟩
  intro hEq
  have h1 : (correlation exC2P exC2P [[1], [2]] exC2AB).1.get? 0 =
      some ("", ["A", "B"]) := by with_unfolding_all rfl
  have h2 : (correlation exC2P exC2P [[2], [1]] exC2BA).1.get? 0 =
      some ("", ["B", "A"]) := by with_unfolding_all rfl
  rw [hEq, h2] at h1
  simp at h1

/-- C3 (amended): the invocation shape `tool <source-file>` with a single
positional argument is rejected, not supported: the run prints the
diagnostic `No field description file specified.` and exits with code 1,
producing no output — a field-descriptor file is always required and no
implicit single-group mode exists. -/
theorem single_arg_rejected (w : ExternalWorld) (src : String)
    (h1 : w.args.get? 1 = some src) (h2 : w.args.get? 2 = none) :
    mainRun w = Outcome.exit1 "No field description file specified." ∧
    exitCode (mainRun w) = 1 ∧
    producesOutput (mainRun w) = false := by
  have hrun : mainRun w = Outcome.exit1 "No field description file specified." := by
    unfold mainRun
    rw [h1, h2]
  exact ⟨hrun, by rw [hrun]; rfl, by rw [hrun]; rfl⟩

/-- A world that invokes the tool with a single positional argument. -/
def exC3World : ExternalWorld :=
  ⟨["tool", "data.csv"], fun _ => none, fun _ => none, fun _ => none,
   fun _ => "", fun _ => "", fun _ => "", fun _ _ => (0, 1),
   fun _ _ => (0, 1), true⟩

/-- C3 witness: the rejection evaluated on the single-argument argv. -/
theorem single_arg_rejected_witness :
    mainRun exC3World = Outcome.exit1 "No field description file specified." ∧
    exitCode (mainRun exC3World) = 1 ∧
    producesOutput (mainRun exC3World) = false :=
  single_arg_rejected exC3World "data.csv" rfl rfl

/-- C3 counterexample to the claim as stated: the single-argument run does
not complete with one matrix; it ends in the exit-1 diagnostic outcome and
writes nothing. -/
theorem single_arg_counterexample :
    mainRun exC3World = Outcome.exit1 "No field description file specified." ∧
    producesOutput (mainRun exC3World) = false ∧
    exitCode (mainRun exC3World) ≠ 0 := by
  refine ⟨by with_unfolding_all rfl, by with_unfolding_all rfl, ?_⟩
  have h : exitCode (mainRun exC3World) = 1 := by with_unfolding_all rfl
  rw [h]
  decide

/-- C4 (amended): when the descriptor names a column absent from the
Dataset, the run aborts through the unchecked `unwrap` on the column
lookup — a panic (exit status 101), with no clearly-labeled
`UnknownColumn` diagnostic — and no output file is written. -/
theorem unknown_column_panics (w : ExternalWorld)
    (src fieldFile raw : String) (fields : List Field) (df : Dataset)
    (h1 : w.args.get? 1 = some src) (h2 : w.args.get? 2 = some fieldFile)
    (h3 : w.openFieldFile fieldFile = some raw)
    (h4 : w.parseFields raw = some fields)
    (h5 : w.readCsv src = some df)
    (fd : Field) (hmem : fd ∈ fields)
    (hmiss : getColumn df fd.name = none) :
    mainRun w = Outcome.panicked ∧
    exitCode (mainRun w) = 101 ∧
    producesOutput (mainRun w) = false := by
  have hext : extractAll df fields = none :=
    collectVec_none_of_mem hmem (by rw [extract, hmiss]; rfl)
  have hrun : mainRun w = Outcome.panicked := by
    unfold mainRun
    simp only [h1, h2, h3, h4, h5, hext]
  exact ⟨hrun, by rw [hrun]; rfl, by rw [hrun]; rfl⟩

/-- A world whose descriptor names the column `Z`, absent from the CSV. -/
def exC4World : ExternalWorld :=
  ⟨["tool", "data.csv", "fields.json"],
   fun _ => some "json", fun _ => some [⟨"Z", Scale.Ordinal⟩],
   fun _ => some [⟨"A", [Cell.value 1]⟩],
   fun _ => "", fun _ => "", fun _ => "", fun _ _ => (0, 1),
   fun _ _ => (0, 1), true⟩

/-- C4 witness: the panic evaluated on a concrete unknown-column run. -/
theorem unknown_column_panics_witness :
    mainRun exC4World = Outcome.panicked ∧
    exitCode (mainRun exC4World) = 101 ∧
    producesOutput (mainRun exC4World) = false :=
  unknown_column_panics exC4World "data.csv" "fields.json" "json"
    [⟨"Z", Scale.Ordinal⟩] [⟨"A", [Cell.value 1]⟩]
    rfl rfl rfl rfl rfl ⟨"Z", Scale.Ordinal⟩ (by simp)
    (by with_unfolding_all rfl)

/-- C4 counterexample to the claim as stated: the unknown-column run does
not fail with a labeled exit-1 diagnostic; it panics, exiting with the
panic status 101 rather than 1. -/
theorem unknown_column_counterexample :
    mainRun exC4World = Outcome.panicked ∧
    exitCode (mainRun exC4World) = 101 ∧
    (101 : ℕ) ≠ 1 := by
  refine ⟨by with_unfolding_all rfl, by with_unfolding_all rfl, by decide⟩

/-- C5 (confirmed): column extraction is total on cell content — for a
dataset column named by the descriptor, every cell that is missing or
fails to cast becomes `0.0` with no error, so extraction yields the dense
numeric vector of the column's full length, and the substituted `0.0`
values are exactly what the downstream statistic receives. -/
theorem extraction_total (df : Dataset) (name : String) (col : Column)
    (h : getColumn df name = some col) :
    extract df name =
        some (col.cells.map (fun cell => (castF64 cell).getD 0)) ∧
    (extractColumn col).length = col.cells.length ∧
    ∀ i : ℕ,
      (col.cells.get? i = some Cell.missing →
        (extractColumn col).get? i = some 0) ∧
      (∀ s : String, col.cells.get? i = some (Cell.unparseable s) →
        (extractColumn col).get? i = some 0) ∧
      (∀ q : ℚ, col.cells.get? i = some (Cell.value q) →
        (extractColumn col).get? i = some q) := by
  refine ⟨by rw [extract, h]; rfl, by simp [extractColumn], fun i => ?_⟩
  refine ⟨fun hm => ?_, fun s hs => ?_, fun q hq => ?_⟩
  · rw [extractColumn, List.get?_map, hm]
    rfl
  · rw [extractColumn, List.get?_map, hs]
    rfl
  · rw [extractColumn, List.get?_map, hq]
    rfl

/-- A column mixing a missing cell, the literal text `N/A`, and a number. -/
def exC5Col : Column := ⟨"A", [Cell.missing, Cell.unparseable "N/A", Cell.value 7]⟩

/-- C5 witness: extraction evaluated on the mixed column. -/
theorem extraction_total_witness :
    getColumn [exC5Col] "A" = some exC5Col ∧
    (extract [exC5Col] "A" =
        some (exC5Col.cells.map (fun cell => (castF64 cell).getD 0)) ∧
      (extractColumn exC5Col).length = exC5Col.cells.length ∧
      ∀ i : ℕ,
        (exC5Col.cells.get? i = some Cell.missing →
          (extractColumn exC5Col).get? i = some 0) ∧
        (∀ s : String, exC5Col.cells.get? i = some (Cell.unparseable s) →
          (extractColumn exC5Col).get? i = some 0) ∧
        (∀ q : ℚ, exC5Col.cells.get? i = some (Cell.value q) →
          (extractColumn exC5Col).get? i = some q)) ∧
    extract [exC5Col] "A" = some [0, 0, 7] :=
  ⟨by with_unfolding_all rfl,
   extraction_total [exC5Col] "A" exC5Col (by with_unfolding_all rfl),
   by with_unfolding_all rfl⟩

/-- C6 (confirmed): a rendered cell is the fixed 不適用 marker exactly for
`NotValid`; otherwise the text embeds the coefficient and the significance
rendered with exactly 5 digits after the decimal point, and carries the
Markdown bold emphasis exactly when `r > 0` and `p < 0.05`.  Rendering is a
pure function of the stored numbers: the `CorrelationResult` fields are
untouched and appear identically in both the plain and the emphasized
shape. -/
theorem render_rule (res : CorrelationResult) :
    CorrelationValue.NotValid.render = "不適用" ∧
    (hasBold (CorrelationValue.Valid res).render = true ↔
      0 < res.r ∧ res.p_value < 5 / 100) ∧
    (fracPart 5 res.r).length = 5 ∧
    (fracPart 5 res.p_value).length = 5 ∧
    (fmtFixed 5 res.r).data <:+: ((CorrelationValue.Valid res).render).data ∧
    (fmtFixed 5 res.p_value).data <:+: ((CorrelationValue.Valid res).render).data := by
  refine ⟨rfl, ?_, fracPart_length res.r, fracPart_length res.p_value, ?_, ?_⟩
  · show hasBold res.render = true ↔ _
    rw [CorrelationResult.render]
    by_cases hc : 0 < res.r ∧ res.p_value < 5 / 100
    · rw [if_pos hc]
      simp only [hasBold, hc, iff_true]
      rw [show ("**r: " ++ fmtFixed 5 res.r ++ "** <br> **p value: "
          ++ fmtFixed 5 res.p_value ++ "**") =
        "**" ++ ("r: " ++ fmtFixed 5 res.r ++ "** <br> **p value: "
          ++ fmtFixed 5 res.p_value ++ "**") by
          simp [← String.append_assoc]]
      simp [String.data_append]
    · rw [if_neg hc]
      simp only [hasBold, hc, iff_false]
      rw [show ("r: " ++ fmtFixed 5 res.r ++ "<br>p value: "
          ++ fmtFixed 5 res.p_value) =
        "r: " ++ (fmtFixed 5 res.r ++ "<br>p value: "
          ++ fmtFixed 5 res.p_value) by simp [String.append_assoc]]
      simp [String.data_append]
  · show (fmtFixed 5 res.r).data <:+: res.render.data
    rw [CorrelationResult.render]
    by_cases hc : 0 < res.r ∧ res.p_value < 5 / 100
    · rw [if_pos hc]
      exact ⟨"**r: ".data, ("** <br> **p value: "
          ++ fmtFixed 5 res.p_value ++ "**").data,
        by simp [String.data_append, List.append_assoc]⟩
    · rw [if_neg hc]
      exact ⟨"r: ".data, ("<br>p value: " ++ fmtFixed 5 res.p_value).data,
        by simp [String.data_append, List.append_assoc]⟩
  · show (fmtFixed 5 res.p_value).data <:+: res.render.data
    rw [CorrelationResult.render]
    by_cases hc : 0 < res.r ∧ res.p_value < 5 / 100
    · rw [if_pos hc]
      exact ⟨("**r: " ++ fmtFixed 5 res.r ++ "** <br> **p value: ").data,
        "**".data, by simp [String.data_append, List.append_assoc]⟩
    · rw [if_neg hc]
      exact ⟨("r: " ++ fmtFixed 5 res.r ++ "<br>p value: ").data, [],
        by simp [String.data_append, List.append_assoc]⟩

/-- C7 (amended): in classification mode — the only mode the program has —
every descriptor record is routed into exactly one of the two scale-group
matrices: the Pearson matrix holds exactly the `Ordinal` fields and the
Kendall matrix exactly the `Nominal` fields, each occurrence of a name
counted once across the two header label lists; each matrix has one row
series per group member.  There is no descriptor-less single-matrix mode
(see the counterexample). -/
theorem scale_partition (p k : Assoc) (pd : List (List ℚ))
    (fields : List Field) (hlen : pd.length = fields.length) :
    (correlation p k pd fields).1.get? 0 =
        some ("", (fields.filter (fun f => f.scale.isOrdinal)).map Field.name) ∧
    (correlation p k pd fields).2.get? 0 =
        some ("", (fields.filter (fun f => f.scale.isNominal)).map Field.name) ∧
    (∀ s : String,
      ((fields.filter (fun f => f.scale.isOrdinal)).map Field.name).count s
        + ((fields.filter (fun f => f.scale.isNominal)).map Field.name).count s
        = (fields.map Field.name).count s) ∧
    (correlation p k pd fields).1.length =
      1 + (fields.filter (fun f => f.scale.isOrdinal)).length ∧
    (correlation p k pd fields).2.length =
      1 + (fields.filter (fun f => f.scale.isNominal)).length := by
  rw [correlation_eq]
  refine ⟨rfl, rfl, fun s => scale_partition_count fields s, ?_, ?_⟩
  · show (_ :: _).length = _
    rw [List.length_cons, List.length_map,
      filtered_enum_zip_length Scale.isOrdinal pd fields hlen]
    omega
  · show (_ :: _).length = _
    rw [List.length_cons, List.length_map,
      filtered_enum_zip_length Scale.isNominal pd fields hlen]
    omega

/-- A mixed two-field descriptor for the partition witness. -/
def exC7Fields : List Field := [⟨"A", Scale.Ordinal⟩, ⟨"C", Scale.Nominal⟩]

/-- C7 witness: the partition evaluated on one Ordinal and one Nominal
field. -/
theorem scale_partition_witness :
    (correlation exC1P exC1K [[1], [2]] exC7Fields).1.get? 0 =
        some ("", (exC7Fields.filter (fun f => f.scale.isOrdinal)).map Field.name) ∧
    (correlation exC1P exC1K [[1], [2]] exC7Fields).2.get? 0 =
        some ("", (exC7Fields.filter (fun f => f.scale.isNominal)).map Field.name) ∧
    ((exC7Fields.filter (fun f => f.scale.isOrdinal)).map Field.name).count "A"
        + ((exC7Fields.filter (fun f => f.scale.isNominal)).map Field.name).count "A"
        = (exC7Fields.map Field.name).count "A" ∧
    (correlation exC1P exC1K [[1], [2]] exC7Fields).1.length =
      1 + (exC7Fields.filter (fun f => f.scale.isOrdinal)).length ∧
    (correlation exC1P exC1K [[1], [2]] exC7Fields).2.length =
      1 + (exC7Fields.filter (fun f => f.scale.isNominal)).length := by
  have h := scale_partition exC1P exC1K [[1], [2]] exC7Fields
    (by with_unfolding_all rfl)
  exact ⟨h.1, h.2.1, h.2.2.1 "A", h.2.2.2.1, h.2.2.2.2⟩

/-- A world invoking the tool without a descriptor file. -/
def exC7World : ExternalWorld :=
  ⟨["tool", "survey.csv"], fun _ => none, fun _ => none, fun _ => none,
   fun _ => "", fun _ => "", fun _ => "", fun _ _ => (0, 1),
   fun _ _ => (0, 1), true⟩

/-- C7 counterexample to the claim's no-descriptor half: without a
descriptor the run exits with a diagnostic and produces no matrix at all,
so no column appears in a single implicit matrix. -/
theorem no_descriptor_counterexample :
    mainRun exC7World = Outcome.exit1 "No field description file specified." ∧
    producesOutput (mainRun exC7World) = false := by
  exact ⟨by with_unfolding_all rfl, by with_unfolding_all rfl⟩

/-- C8 (amended): a missing required argument, an unreadable or
unparseable source file, an unparseable descriptor file, and an unwritable
output each produce a one-line diagnostic, exit code 1, and no output; a
run that writes its output exits with code 0.  The one deviation from the
claim: an *unreadable* descriptor file does not reach the exit-1 path — it
aborts through the `unwrap` panic with exit status 101 and no program
diagnostic (see the counterexample). -/
theorem failure_exit_behaviour :
    (∀ w : ExternalWorld, w.args.get? 1 = none →
      mainRun w = Outcome.exit1 "No source file specified." ∧
        exitCode (mainRun w) = 1 ∧ producesOutput (mainRun w) = false) ∧
    (∀ (w : ExternalWorld) (src : String),
      w.args.get? 1 = some src → w.args.get? 2 = none →
      mainRun w = Outcome.exit1 "No field description file specified." ∧
        exitCode (mainRun w) = 1 ∧ producesOutput (mainRun w) = false) ∧
    (∀ (w : ExternalWorld) (src fieldFile raw : String),
      w.args.get? 1 = some src → w.args.get? 2 = some fieldFile →
      w.openFieldFile fieldFile = some raw → w.parseFields raw = none →
      mainRun w = Outcome.exit1 "Unable to parse fields from JSON file you specified." ∧
        exitCode (mainRun w) = 1 ∧ producesOutput (mainRun w) = false) ∧
    (∀ (w : ExternalWorld) (src fieldFile raw : String) (fields : List Field),
      w.args.get? 1 = some src → w.args.get? 2 = some fieldFile →
      w.openFieldFile fieldFile = some raw → w.parseFields raw = some fields →
      w.readCsv src = none →
      mainRun w = Outcome.exit1 "Unable to open CSV file." ∧
        exitCode (mainRun w) = 1 ∧ producesOutput (mainRun w) = false) ∧
    (∀ (w : ExternalWorld) (src fieldFile raw : String) (fields : List Field)
        (df : Dataset) (pd : List (List ℚ)) (ft : List (String × List ℚ)),
      w.args.get? 1 = some src → w.args.get? 2 = some fieldFile →
      w.openFieldFile fieldFile = some raw → w.parseFields raw = some fields →
      w.readCsv src = some df → extractAll df fields = some pd →
      factorTable df fields = some ft → w.writeOk = false →
      mainRun w = Outcome.exit1 "Unable to write result." ∧
        exitCode (mainRun w) = 1 ∧ producesOutput (mainRun w) = false) ∧
    (∀ (w : ExternalWorld) (src fieldFile : String),
      w.args.get? 1 = some src → w.args.get? 2 = some fieldFile →
      w.openFieldFile fieldFile = none →
      mainRun w = Outcome.panicked ∧ exitCode (mainRun w) = 101) ∧
    (∀ w : ExternalWorld, producesOutput (mainRun w) = true →
      exitCode (mainRun w) = 0) := by
  refine ⟨?_, ?_, ?_, ?_, ?_, ?_, ?_⟩
  · intro w h1
    have hrun : mainRun w = Outcome.exit1 "No source file specified." := by
      unfold mainRun
      rw [h1]
    exact ⟨hrun, by rw [hrun]; rfl, by rw [hrun]; rfl⟩
  · intro w src h1 h2
    have hrun : mainRun w = Outcome.exit1 "No field description file specified." := by
      unfold mainRun
      rw [h1, h2]
    exact ⟨hrun, by rw [hrun]; rfl, by rw [hrun]; rfl⟩
  · intro w src fieldFile raw h1 h2 h3 h4
    have hrun : mainRun w =
        Outcome.exit1 "Unable to parse fields from JSON file you specified." := by
      unfold mainRun
      simp only [h1, h2, h3, h4]
    exact ⟨hrun, by rw [hrun]; rfl, by rw [hrun]; rfl⟩
  · intro w src fieldFile raw fields h1 h2 h3 h4 h5
    have hrun : mainRun w = Outcome.exit1 "Unable to open CSV file." := by
      unfold mainRun
      simp only [h1, h2, h3, h4, h5]
    exact ⟨hrun, by rw [hrun]; rfl, by rw [hrun]; rfl⟩
  · intro w src fieldFile raw fields df pd ft h1 h2 h3 h4 h5 h6 h7 h8
    have hrun : mainRun w = Outcome.exit1 "Unable to write result." := by
      unfold mainRun
      simp only [h1, h2, h3, h4, h5, h6, h7, h8]
      rfl
    exact ⟨hrun, by rw [hrun]; rfl, by rw [hrun]; rfl⟩
  · intro w src fieldFile h1 h2 h3
    have hrun : mainRun w = Outcome.panicked := by
      unfold mainRun
      simp only [h1, h2, h3]
    exact ⟨hrun, by rw [hrun]; rfl⟩
  · intro w h
    cases hrun : mainRun w with
    | exit1 d => rw [hrun] at h; simp [producesOutput] at h
    | panicked => rw [hrun] at h; simp [producesOutput] at h
    | success fn c => rfl

/-- A world invoked with no arguments beyond the program name. -/
def exC8ArgsMissing : ExternalWorld :=
  ⟨["tool"], fun _ => none, fun _ => none, fun _ => none,
   fun _ => "", fun _ => "", fun _ => "", fun _ _ => (0, 1),
   fun _ _ => (0, 1), true⟩

/-- A world invoked without the descriptor argument. -/
def exC8NoDescriptor : ExternalWorld :=
  ⟨["tool", "s.csv"], fun _ => none, fun _ => none, fun _ => none,
   fun _ => "", fun _ => "", fun _ => "", fun _ _ => (0, 1),
   fun _ _ => (0, 1), true⟩

/-- A world whose descriptor file opens but fails to parse as JSON. -/
def exC8BadJson : ExternalWorld :=
  ⟨["tool", "s.csv", "f.json"], fun _ => some "oops", fun _ => none,
   fun _ => none, fun _ => "", fun _ => "", fun _ => "",
   fun _ _ => (0, 1), fun _ _ => (0, 1), true⟩

/-- A world whose CSV source cannot be opened. -/
def exC8BadCsv : ExternalWorld :=
  ⟨["tool", "s.csv", "f.json"], fun _ => some "j", fun _ => some [],
   fun _ => none, fun _ => "", fun _ => "", fun _ => "",
   fun _ _ => (0, 1), fun _ _ => (0, 1), true⟩

/-- A world whose pipeline succeeds but whose output is unwritable. -/
def exC8NoWrite : ExternalWorld :=
  ⟨["tool", "s.csv", "f.json"], fun _ => some "j", fun _ => some [],
   fun _ => some [], fun _ => "", fun _ => "", fun _ => "",
   fun _ _ => (0, 1), fun _ _ => (0, 1), false⟩

/-- A world whose descriptor file cannot be opened at all. -/
def exC8Unreadable : ExternalWorld :=
  ⟨["tool", "s.csv", "f.json"], fun _ => none, fun _ => none,
   fun _ => none, fun _ => "", fun _ => "", fun _ => "",
   fun _ _ => (0, 1), fun _ _ => (0, 1), true⟩

/-- A world whose run succeeds end to end. -/
def exC8Success : ExternalWorld :=
  ⟨["tool", "s.csv", "f.json"], fun _ => some "j", fun _ => some [],
   fun _ => some [], fun _ => "", fun _ => "", fun _ => "",
   fun _ _ => (0, 1), fun _ _ => (0, 1), true⟩

/-- C8 witness: each exit path evaluated on its concrete world. -/
theorem failure_exit_behaviour_witness :
    (mainRun exC8ArgsMissing = Outcome.exit1 "No source file specified." ∧
      exitCode (mainRun exC8ArgsMissing) = 1 ∧
      producesOutput (mainRun exC8ArgsMissing) = false) ∧
    (mainRun exC8NoDescriptor =
        Outcome.exit1 "No field description file specified." ∧
      exitCode (mainRun exC8NoDescriptor) = 1 ∧
      producesOutput (mainRun exC8NoDescriptor) = false) ∧
    (mainRun exC8BadJson =
        Outcome.exit1 "Unable to parse fields from JSON file you specified." ∧
      exitCode (mainRun exC8BadJson) = 1 ∧
      producesOutput (mainRun exC8BadJson) = false) ∧
    (mainRun exC8BadCsv = Outcome.exit1 "Unable to open CSV file." ∧
      exitCode (mainRun exC8BadCsv) = 1 ∧
      producesOutput (mainRun exC8BadCsv) = false) ∧
    (mainRun exC8NoWrite = Outcome.exit1 "Unable to write result." ∧
      exitCode (mainRun exC8NoWrite) = 1 ∧
      producesOutput (mainRun exC8NoWrite) = false) ∧
    (mainRun exC8Unreadable = Outcome.panicked ∧
      exitCode (mainRun exC8Unreadable) = 101) ∧
    exitCode (mainRun exC8Success) = 0 :=
  ⟨failure_exit_behaviour.1 exC8ArgsMissing rfl,
   failure_exit_behaviour.2.1 exC8NoDescriptor "s.csv" rfl rfl,
   failure_exit_behaviour.2.2.1 exC8BadJson "s.csv" "f.json" "oops"
     rfl rfl rfl rfl,
   failure_exit_behaviour.2.2.2.1 exC8BadCsv "s.csv" "f.json" "j" []
     rfl rfl rfl rfl rfl,
   failure_exit_behaviour.2.2.2.2.1 exC8NoWrite "s.csv" "f.json" "j" [] [] [] []
     rfl rfl rfl rfl rfl (by with_unfolding_all rfl)
     (by with_unfolding_all rfl) rfl,
   failure_exit_behaviour.2.2.2.2.2.1 exC8Unreadable "s.csv" "f.json"
     rfl rfl rfl,
   failure_exit_behaviour.2.2.2.2.2.2 exC8Success (by with_unfolding_all rfl)⟩

/-- C8 counterexample to the claim as stated: an unreadable descriptor
file does not produce a diagnostic and exit code 1 — the run panics,
exiting with status 101. -/
theorem descriptor_unreadable_counterexample :
    mainRun exC8Unreadable = Outcome.panicked ∧
    exitCode (mainRun exC8Unreadable) = 101 ∧ (101 : ℕ) ≠ 1 :=
  ⟨by with_unfolding_all rfl, by with_unfolding_all rfl, by decide⟩

/-- A successful collect has one entry per input element. -/
theorem collectVec_length {α β : Type _} (f : α → Option β) :
    ∀ (l : List α) (l' : List β), collectVec f l = some l' →
      l'.length = l.length := by
  intro l
  induction l with
  | nil =>
    intro l' h
    rw [collectVec] at h
    obtain rfl := Option.some_injective _ h
    rfl
  | cons a t ih =>
    intro l' h
    rw [collectVec] at h
    cases hfa : f a with
    | none => rw [hfa] at h; cases h
    | some b =>
      rw [hfa] at h
      simp only at h
      cases hft : collectVec f t with
      | none => rw [hft] at h; cases h
      | some t' =>
        rw [hft] at h
        simp only [Option.map_some'] at h
        obtain rfl := Option.some_injective _ h
        simp [ih t' hft]

/-- The factor-analysis table re-extracts exactly the filtered fields: it
equals the zip of the descriptor with the already-extracted data, filtered
by the hardcoded-question test, in descriptor order. -/
theorem factor_table_eq (df : Dataset) (fields : List Field) :
    ∀ pd : List (List ℚ), extractAll df fields = some pd →
      factorTable df fields =
        some (((fields.zip pd).filter (fun t => isFactorField t.1)).map
          (fun t => (t.1.name, t.2))) := by
  induction fields with
  | nil =>
    intro pd h
    rw [extractAll, collectVec] at h
    obtain rfl := Option.some_injective _ h
    rfl
  | cons fd fs ih =>
    intro pd h
    rw [extractAll, collectVec] at h
    cases he : extract df fd.name with
    | none => rw [he] at h; cases h
    | some v =>
      rw [he] at h
      simp only at h
      cases hfs : collectVec (fun field => extract df field.name) fs with
      | none => rw [hfs] at h; cases h
      | some pd' =>
        rw [hfs] at h
        simp only [Option.map_some'] at h
        obtain rfl := Option.some_injective _ h
        have ihfs := ih pd' (by rw [extractAll]; exact hfs)
        by_cases hffd : isFactorField fd = true
        · rw [factorTable, List.filter_cons, if_pos hffd, collectVec,
            show (extract df fd.name).map (fun v => (fd.name, v)) =
              some (fd.name, v) by rw [he]; rfl]
          simp only
          rw [show collectVec
              (fun field => (extract df field.name).map (fun v => (field.name, v)))
              (fs.filter isFactorField) = factorTable df fs from rfl,
            ihfs, List.zip_cons_cons, List.filter_cons, if_pos hffd,
            List.map_cons]
          rfl
        · rw [factorTable, List.filter_cons, if_neg hffd,
            show collectVec
              (fun field => (extract df field.name).map (fun v => (field.name, v)))
              (fs.filter isFactorField) = factorTable df fs from rfl,
            ihfs, List.zip_cons_cons, List.filter_cons, if_neg hffd]

/-- C9 (confirmed): the factor-analysis input consists of exactly those
descriptor fields whose name contains one of the two hardcoded question
strings (the phone-charger spending question and the monthly spending
question), in descriptor order, each carrying the very vector produced by
the 0.0-substituting extraction; no other column enters the table. -/
theorem factor_input_rule (df : Dataset) (fields : List Field)
    (pd : List (List ℚ)) (h : extractAll df fields = some pd) :
    factorTable df fields =
      some (((fields.zip pd).filter (fun t => isFactorField t.1)).map
        (fun t => (t.1.name, t.2))) ∧
    (((fields.zip pd).filter (fun t => isFactorField t.1)).map
        (fun t => (t.1.name, t.2))).map Prod.fst =
      (fields.filter isFactorField).map Field.name := by
  refine ⟨factor_table_eq df fields pd h, ?_⟩
  have hlen : pd.length = fields.length :=
    collectVec_length (fun field => extract df field.name) fields pd
      (by rw [← extractAll]; exact h)
  rw [List.map_map]
  have h1 : ((fields.zip pd).filter (fun t => isFactorField t.1)).map
      (Prod.fst ∘ fun t : Field × List ℚ => (t.1.name, t.2)) =
      ((fields.zip pd).filter (fun t => isFactorField t.1)).map
        (fun t => t.1.name) := rfl
  rw [h1,
    show (fun t : Field × List ℚ => t.1.name) =
      (Field.name ∘ Prod.fst) from rfl,
    ← List.map_map,
    show ((fields.zip pd).filter (fun t => isFactorField t.1)).map Prod.fst =
      ((fields.zip pd).map Prod.fst).filter isFactorField from
      (@List.filter_map _ _ isFactorField Prod.fst (fields.zip pd)).symm,
    List.map_fst_zip fields pd hlen.ge]

/-- Descriptor fields around the two hardcoded questions: one name
containing the first question, one containing the second, one unrelated. -/
def exC9Fields : List Field :=
  [⟨"q1 請問您一次願意花多少新台幣購買手機充電設備 (例如：充電線、豆腐頭) ?", Scale.Ordinal⟩,
   ⟨"age", Scale.Nominal⟩,
   ⟨"您一個月的平均花費為多少新台幣?", Scale.Ordinal⟩]

/-- A dataset carrying the three columns of `exC9Fields`. -/
def exC9Df : Dataset :=
  [⟨"q1 請問您一次願意花多少新台幣購買手機充電設備 (例如：充電線、豆腐頭) ?", [Cell.value 3]⟩,
   ⟨"age", [Cell.value 20]⟩,
   ⟨"您一個月的平均花費為多少新台幣?", [Cell.missing]⟩]

/-- C9 witness: the factor-table rule evaluated on the three-column
example — the unrelated `age` column stays out and the two question
columns enter with their extracted data (including the substituted 0). -/
theorem factor_input_rule_witness :
    (factorTable exC9Df exC9Fields =
        some (((exC9Fields.zip [[3], [20], [0]]).filter
            (fun t => isFactorField t.1)).map (fun t => (t.1.name, t.2))) ∧
      (((exC9Fields.zip [[3], [20], [0]]).filter
            (fun t => isFactorField t.1)).map
          (fun t => (t.1.name, t.2))).map Prod.fst =
        (exC9Fields.filter isFactorField).map Field.name) ∧
    factorTable exC9Df exC9Fields =
      some [("q1 請問您一次願意花多少新台幣購買手機充電設備 (例如：充電線、豆腐頭) ?", [3]),
            ("您一個月的平均花費為多少新台幣?", [0])] :=
  ⟨factor_input_rule exC9Df exC9Fields [[3], [20], [0]]
      (by with_unfolding_all rfl),
   by with_unfolding_all rfl⟩

/-- C10 (confirmed): the Pearson and Kendall matrices depend only on the
descriptor-named columns — two datasets that agree on every column named
by the descriptor extract to the same data and produce identical matrices,
whatever their other columns hold. -/
theorem matrices_depend_only_on_named_columns (df1 df2 : Dataset)
    (fields : List Field) (p k : Assoc)
    (hagree : ∀ f ∈ fields, getColumn df1 f.name = getColumn df2 f.name) :
    extractAll df1 fields = extractAll df2 fields ∧
    (extractAll df1 fields).map (fun pd => correlation p k pd fields) =
      (extractAll df2 fields).map (fun pd => correlation p k pd fields) := by
  have hext : extractAll df1 fields = extractAll df2 fields := by
    rw [extractAll, extractAll]
    exact collectVec_congr
      (fun fd hfd => by rw [extract, extract, hagree fd hfd])
  exact ⟨hext, by rw [hext]⟩

/-- First dataset for the dependence witness: named column `A` plus an
extra column `X`. -/
def exC10Df1 : Dataset :=
  [⟨"A", [Cell.value 1, Cell.value 2]⟩, ⟨"X", [Cell.value 5, Cell.value 6]⟩]

/-- Second dataset: same `A`, entirely different unnamed column `X`. -/
def exC10Df2 : Dataset :=
  [⟨"A", [Cell.value 1, Cell.value 2]⟩, ⟨"X", [Cell.missing, Cell.value 9]⟩]

/-- The descriptor naming only `A`. -/
def exC10Fields : List Field := [⟨"A", Scale.Ordinal⟩]

/-- C10 witness: the two runs evaluated on datasets differing only in the
unnamed column `X`. -/
theorem matrices_depend_only_on_named_columns_witness :
    (extractAll exC10Df1 exC10Fields = extractAll exC10Df2 exC10Fields ∧
      (extractAll exC10Df1 exC10Fields).map
          (fun pd => correlation exC2P exC2P pd exC10Fields) =
        (extractAll exC10Df2 exC10Fields).map
          (fun pd => correlation exC2P exC2P pd exC10Fields)) ∧
    exC10Df1 ≠ exC10Df2 :=
  ⟨matrices_depend_only_on_named_columns exC10Df1 exC10Df2 exC10Fields
      exC2P exC2P
      (by
        intro f hf
        simp only [exC10Fields, List.mem_singleton] at hf
        subst hf
        with_unfolding_all rfl),
   by with_unfolding_all decide⟩

end MarketTool
